import Mathlib

/-!
Shallow embedding of `src/server.py` (the MCP tools-and-resources server) and
verification of the specification's claims about it.

The server module defines four handlers: `list_tools`, `handle_tools` (the
call-tool dispatcher), `list_resources` and `read_resource`.  They are pure
up to two external collaborators, which we make explicit parameters:

* the filesystem (`FSState`): the directory listing seen by `os.listdir('.')`
  and `Path('.').glob(...)`, the outcome of `open(filename, 'r')`, and the
  outcome of `open(filename, 'w')` inside the tool handlers;
* the clock: `datetime.now().isoformat()` is passed in as the string `now`.

Argument bundles (Python dicts of string values) are association lists; a
Python `KeyError` escaping a handler is modelled by the `raisedKeyError`
constructor of `HandlerOutcome`.
-/

namespace MCPServer

/-- Python `s.rstrip('/')`: remove every trailing `'/'` character
(`server.py` line 201). -/
def pyRstripSlash (s : String) : String :=
  String.mk ((s.data.reverse.dropWhile (fun c => c = '/')).reverse)

/-- Python `s.startswith(pre)`, on the character lists. -/
def pyStartsWith (s pre : String) : Bool :=
  pre.data.isPrefixOf s.data

/-- Python `s.endswith(post)`, on the character lists. -/
def pyEndsWith (s post : String) : Bool :=
  post.data.reverse.isPrefixOf s.data.reverse

/-- Python `s[:-1]`: drop the last character. -/
def pyDropLast (s : String) : String :=
  String.mk s.data.dropLast

/-- Helper for `pyReplaceFirst` on character lists: replace the first
occurrence of `pat` by `repl`, or return the list unchanged when `pat`
does not occur. -/
def replaceFirstAux (pat repl : List Char) : List Char → List Char
  | [] => []
  | c :: rest =>
    if pat.isPrefixOf (c :: rest) then repl ++ (c :: rest).drop pat.length
    else c :: replaceFirstAux pat repl rest

/-- Python `s.replace(pat, repl, 1)`: replace the first occurrence only
(`server.py` line 238). -/
def pyReplaceFirst (s pat repl : String) : String :=
  String.mk (replaceFirstAux pat.data repl.data s.data)

/-- One entry of the current working directory, as enumerated by
`os.listdir('.')`; `isDir` is what `os.path.isdir(item)` answers. -/
structure FSEntry where
  name : String
  isDir : Bool
  deriving DecidableEq

/-- Outcome of `open(filename, 'r')` followed by `f.read()`:
success with the file text, `FileNotFoundError`, or any other exception
with its message (`server.py` lines 242-249). -/
inductive ReadOutcome where
  | ok (content : String)
  | notFound
  | err (msg : String)
  deriving DecidableEq

/-- The filesystem collaborator: the directory listing in enumeration
order, the read behaviour of each path (absent paths raise
`FileNotFoundError`), and the paths whose `open(..., 'w')` raises,
with the exception message. -/
structure FSState where
  listing : List FSEntry
  reads : List (String × ReadOutcome)
  writeErrors : List (String × String)
  deriving DecidableEq

/-- Reading `filename`: the recorded outcome, or `FileNotFoundError`
when the path has no entry. -/
def fsRead (fs : FSState) (filename : String) : ReadOutcome :=
  match fs.reads.find? (fun p => p.1 == filename) with
  | some p => p.2
  | none => ReadOutcome.notFound

/-- Opening `filename` for writing: `some msg` when it raises with
message `msg`, `none` when the write succeeds. -/
def fsWriteError (fs : FSState) (filename : String) : Option String :=
  (fs.writeErrors.find? (fun p => p.1 == filename)).map Prod.snd

/-- `Path('.').glob('*' + suffix)` in enumeration order: every directory
entry (pathlib matches plain files, hidden files and directories alike)
whose name ends with `suffix`.  For the patterns `*.json` and `*.txt`
used by the server this is exactly a suffix test. -/
def pyGlob (fs : FSState) (suffix : String) : List String :=
  (fs.listing.filter (fun e => pyEndsWith e.name suffix)).map FSEntry.name

/-- Schema of a single property inside a tool's input schema. -/
structure PropSchema where
  type : String
  description : Option String
  deriving DecidableEq

/-- A tool's `inputSchema`: a JSON-Schema-like object schema. -/
structure InputSchema where
  type : String
  properties : List (String × PropSchema)
  required : List String
  deriving DecidableEq

/-- `mcp.types.Tool` as used by the server. -/
structure Tool where
  name : String
  description : String
  inputSchema : InputSchema
  deriving DecidableEq

/-- `mcp.types.TextContent`. -/
structure TextContent where
  type : String
  text : String
  deriving DecidableEq

/-- The `list_tools` handler (`server.py` lines 50-88): a fixed list of
three tool descriptors in declaration order. -/
def list_tools : List Tool :=
  [ { name := "say_hello",
      description := "Says hello to someone",
      inputSchema :=
        { type := "object",
          properties := [("name", { type := "string", description := none })],
          required := ["name"] } },
    { name := "create_sample_data",
      description := "Create sample JSON data files for testing resources",
      inputSchema :=
        { type := "object",
          properties :=
            [("filename", { type := "string", description := some "Name for the JSON file" })],
          required := ["filename"] } },
    { name := "write_note",
      description := "Write a note to a text file",
      inputSchema :=
        { type := "object",
          properties :=
            [("filename", { type := "string", description := none }),
             ("content", { type := "string", description := none })],
          required := ["filename", "content"] } } ]

/-- A caller-supplied argument bundle: a Python dict of string values. -/
def ArgumentBundle : Type := List (String × String)

/-- Python `arguments.get(key)` / `arguments[key]` lookup. -/
def dictGet (args : List (String × String)) (key : String) : Option String :=
  (args.find? (fun p => p.1 == key)).map Prod.snd

/-- What a call-tool handler invocation does: return a content list, or
let a `KeyError` on the named key escape the handler body. -/
inductive HandlerOutcome where
  | ok (content : List TextContent)
  | raisedKeyError (key : String)
  deriving DecidableEq

/-- The `handle_tools` handler (`server.py` lines 90-139).  Python's
`arguments["k"]` on a missing key raises `KeyError`, modelled by
`raisedKeyError`; `arguments.get("name", "World")` supplies a default
instead.  The JSON payload written by `create_sample_data` and the note
text written by `write_note` go to the filesystem collaborator; only the
success/failure of the write is observable in the returned content. -/
def handle_tools (fs : FSState) (name : String) (arguments : List (String × String)) :
    HandlerOutcome :=
  if name = "say_hello" then
    let person_name := (dictGet arguments "name").getD "World"
    HandlerOutcome.ok [{ type := "text", text := "Hello, " ++ person_name ++ "! 👋" }]
  else if name = "create_sample_data" then
    match dictGet arguments "filename" with
    | none => HandlerOutcome.raisedKeyError "filename"
    | some fn =>
      let filename := if pyEndsWith fn ".json" then fn else fn ++ ".json"
      match fsWriteError fs filename with
      | none =>
        HandlerOutcome.ok [{ type := "text", text := "✅ Created sample data file: " ++ filename }]
      | some e =>
        HandlerOutcome.ok [{ type := "text", text := "❌ Error creating file: " ++ e }]
  else if name = "write_note" then
    match dictGet arguments "filename" with
    | none => HandlerOutcome.raisedKeyError "filename"
    | some filename =>
      match dictGet arguments "content" with
      | none => HandlerOutcome.raisedKeyError "content"
      | some _content =>
        match fsWriteError fs filename with
        | none =>
          HandlerOutcome.ok [{ type := "text", text := "✅ Note saved to: " ++ filename }]
        | some e =>
          HandlerOutcome.ok [{ type := "text", text := "❌ Error writing note: " ++ e }]
  else
    HandlerOutcome.ok [{ type := "text", text := "❌ Unknown tool: " ++ name }]

/-- `mcp.types.Resource` as used by the server. -/
structure Resource where
  uri : String
  name : String
  description : String
  mimeType : String
  deriving DecidableEq

/-- Resource 1 of `list_resources`: the current-directory listing
(`server.py` lines 156-161). -/
def currentDirectoryResource : Resource :=
  { uri := "file://current-directory",
    name := "Current Directory",
    description := "List of files in the current directory",
    mimeType := "text/plain" }

/-- Resource 2 of `list_resources`: server status (`server.py`
lines 164-169). -/
def serverStatusResource : Resource :=
  { uri := "server://status",
    name := "Server Status",
    description := "Current server status and information",
    mimeType := "application/json" }

/-- The `list_resources` handler (`server.py` lines 147-189): the two
synthetic descriptors, then one descriptor per `*.json` glob match,
then one per `*.txt` glob match.  For a non-recursive glob of `'.'`,
`str(json_file)` and `json_file.name` are the same string. -/
def list_resources (fs : FSState) : List Resource :=
  [currentDirectoryResource, serverStatusResource]
  ++ (pyGlob fs ".json").map (fun json_file =>
      { uri := "file://" ++ json_file,
        name := "JSON Data: " ++ json_file,
        description := "JSON data from " ++ json_file,
        mimeType := "application/json" })
  ++ (pyGlob fs ".txt").map (fun txt_file =>
      { uri := "file://" ++ txt_file,
        name := "Text File: " ++ txt_file,
        description := "Text content from " ++ txt_file,
        mimeType := "text/plain" })

/-- `mcp.types.TextResourceContents` (only the fields the server sets). -/
structure TextResourceContents where
  uri : String
  text : String
  deriving DecidableEq

/-- `mcp.types.ReadResourceResult`. -/
structure ReadResourceResult where
  contents : List TextResourceContents
  deriving DecidableEq

/-- The four branches of `read_resource`'s `if`/`elif` cascade
(`server.py` lines 203-252), i.e. which content handler a URI resolves
to. -/
inductive RBranch where
  | currentDir
  | status
  | fileRead
  | unknown
  deriving DecidableEq

/-- The dispatch cascade of `read_resource`, hoisted out: the URI is
normalized by stripping trailing slashes (line 201), then matched
exactly against the current-directory URI, exactly against the status
URI, then by prefix against the `file://` scheme, else unknown. -/
def resolveBranch (uri_str : String) : RBranch :=
  let normalized_uri := pyRstripSlash uri_str
  if normalized_uri = "file://current-directory" then RBranch.currentDir
  else if normalized_uri = "server://status" then RBranch.status
  else if pyStartsWith normalized_uri "file://" then RBranch.fileRead
  else RBranch.unknown

/-- Content of the current-directory resource (`server.py` lines
204-212): a header line, then one line per `os.listdir('.')` entry,
directories flagged and suffixed with a slash. -/
def directoryListingText (fs : FSState) : String :=
  let files := fs.listing.map (fun item =>
    if item.isDir then "📁 " ++ item.name ++ "/" else "📄 " ++ item.name)
  "Current Directory Contents:\n" ++ String.intercalate "\n" files

/-- The `status_data` dict built by the status branch of `read_resource`
(`server.py` lines 223-232), with its key order. -/
structure StatusData where
  server_name : String
  version : String
  status : String
  uptime : String
  capabilities : List String
  tools_count : Nat
  resources_available : Nat
  current_time : String
  deriving DecidableEq

/-- The status branch's computation of `status_data` (`server.py` lines
215-232): the resource count is recomputed live from fresh glob scans
(`base_resources = 2` plus the `*.json` and `*.txt` match counts), and
`current_time` is the timestamp taken at read time. -/
def statusData (fs : FSState) (now : String) : StatusData :=
  let json_count := (pyGlob fs ".json").length
  let txt_count := (pyGlob fs ".txt").length
  let base_resources := 2
  let total_resources := base_resources + json_count + txt_count
  { server_name := "tools-and-resources-server",
    version := "1.0.0",
    status := "running",
    uptime := "active",
    capabilities := ["tools", "resources"],
    tools_count := 3,
    resources_available := total_resources,
    current_time := now }

/-- String escaping as in `json.dumps` (the characters that can occur
here; non-ASCII escaping is irrelevant to the status payload). -/
def jsonEscape (s : String) : String :=
  String.join (s.data.map (fun c =>
    if c = '"' then "\\\""
    else if c = '\\' then "\\\\"
    else if c = '\n' then "\\n"
    else if c = '\t' then "\\t"
    else if c = '\r' then "\\r"
    else String.mk [c]))

/-- A JSON string literal. -/
def jsonStr (s : String) : String := "\"" ++ jsonEscape s ++ "\""

/-- `json.dumps` of a list of strings nested one level deep with
`indent=2`. -/
def jsonStrList (l : List String) : String :=
  if l.isEmpty then "[]"
  else "[\n" ++ String.intercalate ",\n" (l.map (fun c => "    " ++ jsonStr c)) ++ "\n  ]"

/-- `json.dumps(status_data, indent=2)` (`server.py` line 234), laid out
with the dict's insertion order. -/
def jsonDumpStatus (s : StatusData) : String :=
  "\x7b\n  \"server_name\": " ++ jsonStr s.server_name
  ++ ",\n  \"version\": " ++ jsonStr s.version
  ++ ",\n  \"status\": " ++ jsonStr s.status
  ++ ",\n  \"uptime\": " ++ jsonStr s.uptime
  ++ ",\n  \"capabilities\": " ++ jsonStrList s.capabilities
  ++ ",\n  \"tools_count\": " ++ toString s.tools_count
  ++ ",\n  \"resources_available\": " ++ toString s.resources_available
  ++ ",\n  \"current_time\": " ++ jsonStr s.current_time
  ++ "\n\x7d"

/-- The filename computation of the `file://` branch (`server.py` lines
238-241): remove the first occurrence of `file://` from the original
(un-normalized) URI string, then drop one trailing slash or backslash
if present. -/
def resolvedFilename (uri_str : String) : String :=
  let filename := pyReplaceFirst uri_str "file://" ""
  if pyEndsWith filename "/" || pyEndsWith filename "\\" then pyDropLast filename
  else filename

/-- The `read_resource` handler (`server.py` lines 192-252).  The
incoming URI is already a string here (`str(uri)` is the identity), so
`uri_str = uri`; `now` is the timestamp `datetime.now().isoformat()`
observed by the status branch. -/
def read_resource (fs : FSState) (now : String) (uri : String) : ReadResourceResult :=
  let uri_str := uri
  match resolveBranch uri_str with
  | RBranch.currentDir =>
    { contents := [{ uri := uri_str, text := directoryListingText fs }] }
  | RBranch.status =>
    { contents := [{ uri := uri_str, text := jsonDumpStatus (statusData fs now) }] }
  | RBranch.fileRead =>
    let filename := resolvedFilename uri_str
    match fsRead fs filename with
    | ReadOutcome.ok content =>
      { contents := [{ uri := uri_str, text := content }] }
    | ReadOutcome.notFound =>
      { contents := [{ uri := uri_str, text := "❌ File not found: " ++ filename }] }
    | ReadOutcome.err e =>
      { contents := [{ uri := uri_str, text := "❌ Error reading file: " ++ e }] }
  | RBranch.unknown =>
    { contents := [{ uri := uri_str, text := "❌ Unknown resource URI: " ++ uri_str }] }

/-- An empty working directory, used as a concrete filesystem state. -/
def fsEmpty : FSState := { listing := [], reads := [], writeErrors := [] }

/-- A filesystem in which reading `err.txt` raises a non-`FileNotFoundError`
exception. -/
def fsErr : FSState :=
  { listing := [], reads := [("err.txt", ReadOutcome.err "disk failure")], writeErrors := [] }

/-- Stripping trailing slashes is invariant under appending one more
trailing slash. -/
theorem pyRstripSlash_append_slash (u : String) :
    pyRstripSlash (u ++ "/") = pyRstripSlash u := by
  have h : (u ++ "/").data = u.data ++ ['/'] := rfl
  simp [pyRstripSlash, h]

/-- Every branch of `read_resource` returns exactly one text content item
whose `uri` field is the original input string. -/
theorem read_resource_contents_shape (fs : FSState) (now uri : String) :
    ∃ t, read_resource fs now uri = { contents := [{ uri := uri, text := t }] } := by
  simp only [read_resource]
  split
  · exact ⟨_, rfl⟩
  · exact ⟨_, rfl⟩
  · split
    · exact ⟨_, rfl⟩
    · exact ⟨_, rfl⟩
    · exact ⟨_, rfl⟩
  · exact ⟨_, rfl⟩

/-- Claim C1, counterexample: the `say_hello` schema marks `name` required,
yet calling it with an empty argument bundle does not return a validation
failure naming `name` — the handler executes and returns the greeting
`Hello, World! 👋`, whose text does not even contain the substring
`name`. -/
theorem sayHello_missing_name_executes_handler :
    (list_tools.head?).map (fun t => t.inputSchema.required) = some ["name"] ∧
    handle_tools fsEmpty "say_hello" [] =
      HandlerOutcome.ok [{ type := "text", text := "Hello, World! 👋" }] ∧
    ¬ List.IsInfix "name".data "Hello, World! 👋".data :=
  ⟨rfl, rfl, by decide⟩

/-- Claim C1, amended: no schema validation happens before dispatch; for
every bundle, `CallTool("say_hello", args)` executes the handler, which
substitutes the default `World` for a missing `name` and uses the supplied
value when present. -/
theorem sayHello_default_name (fs : FSState) (args : List (String × String)) :
    handle_tools fs "say_hello" args =
      HandlerOutcome.ok
        [{ type := "text",
           text := "Hello, " ++ ((dictGet args "name").getD "World") ++ "! 👋" }] := rfl

/-- Claim C2, counterexample: the unknown-tool text carries the error-marker
emoji, so it is not equal to the bare string `Unknown tool: bogus`. -/
theorem unknownTool_text_has_marker :
    handle_tools fsEmpty "bogus" [] =
      HandlerOutcome.ok [{ type := "text", text := "❌ Unknown tool: bogus" }] ∧
    "❌ Unknown tool: bogus" ≠ "Unknown tool: bogus" :=
  ⟨rfl, by decide⟩

/-- Claim C2, amended: for every tool name not in the registry and every
argument bundle, `CallTool` returns (never raises) exactly one text item
whose text is `❌ Unknown tool: <n>`. -/
theorem unknownTool_handled (fs : FSState) (n : String) (args : List (String × String))
    (h1 : n ≠ "say_hello") (h2 : n ≠ "create_sample_data") (h3 : n ≠ "write_note") :
    handle_tools fs n args =
      HandlerOutcome.ok [{ type := "text", text := "❌ Unknown tool: " ++ n }] := by
  simp [handle_tools, h1, h2, h3]

/-- Claim C2, witness for the amended theorem at the concrete unknown name
`get_time`. -/
theorem unknownTool_handled_witness :
    handle_tools fsEmpty "get_time" [] =
      HandlerOutcome.ok [{ type := "text", text := "❌ Unknown tool: get_time" }] :=
  unknownTool_handled fsEmpty "get_time" [] (by decide) (by decide) (by decide)

/-- Claim C3, counterexample: `bogus` and `bogus/` dispatch to the same
(unknown-URI) branch, but the produced contents are not structurally
identical — the handled text embeds the original, un-normalized URI
string (and the `uri` field echoes it as well). -/
theorem readResource_trailing_slash_contents_differ :
    resolveBranch "bogus/" = resolveBranch "bogus" ∧
    (read_resource fsEmpty "t0" "bogus").contents.map TextResourceContents.text ≠
    (read_resource fsEmpty "t0" "bogus/").contents.map TextResourceContents.text :=
  ⟨rfl, by decide⟩

/-- Claim C3, amended: trailing slashes are stripped before matching, so a
URI with one more trailing slash always resolves to the identical handler
branch; for the server-status URI the text content (everything apart from
the echoed `uri` field) is identical modulo the live timestamp, here made
explicit by reading at one common `now`. -/
theorem readResource_trailing_slash_same_branch (fs : FSState) (now u : String) :
    resolveBranch (u ++ "/") = resolveBranch u ∧
    (read_resource fs now "server://status/").contents.map TextResourceContents.text =
    (read_resource fs now "server://status").contents.map TextResourceContents.text := by
  constructor
  · unfold resolveBranch
    rw [pyRstripSlash_append_slash]
  · rfl

/-- Claim C4: `ListResources` always yields the two fixed synthetic
descriptors first, in fixed order (current-directory listing, then server
status), and with `N` glob-matching data/plain-text files present the
total length is exactly `2 + N`. -/
theorem listResources_synthetic_first_and_length (fs : FSState) :
    (list_resources fs).take 2 = [currentDirectoryResource, serverStatusResource] ∧
    (list_resources fs).length =
      2 + ((pyGlob fs ".json").length + (pyGlob fs ".txt").length) := by
  refine ⟨rfl, ?_⟩
  simp [list_resources]
  omega

/-- Claim C5, counterexample: the synthetic descriptors carry the URIs
`file://current-directory` and `server://status`, not `dir://current` and
`status://server` as claimed. -/
theorem listResources_synthetic_uris_differ_from_spec :
    (list_resources fsEmpty).map Resource.uri =
      ["file://current-directory", "server://status"] ∧
    (list_resources fsEmpty).map Resource.uri ≠ ["dir://current", "status://server"] :=
  ⟨rfl, by decide⟩

/-- Claim C5, amended: the two synthetic descriptors carry, in order, the
URI `file://current-directory` for the current-directory listing and the
URI `server://status` for the server status. -/
theorem listResources_synthetic_uris (fs : FSState) :
    ((list_resources fs).take 2).map Resource.uri =
      ["file://current-directory", "server://status"] := rfl

/-- Claim C6: reading the server-status resource recomputes the catalog
size live from fresh glob scans — the embedded `resources_available`
count equals the length of what `ListResources` would return against the
same filesystem state — and carries the timestamp taken at read time. -/
theorem statusResource_live_count (fs : FSState) (now : String) :
    read_resource fs now "server://status" =
      { contents := [{ uri := "server://status", text := jsonDumpStatus (statusData fs now) }] } ∧
    (statusData fs now).resources_available = (list_resources fs).length ∧
    (statusData fs now).current_time = now := by
  refine ⟨rfl, ?_, rfl⟩
  simp [statusData, list_resources]
  omega

/-- Claim C7: for every URI dispatched to the file-backed branch, a
missing file yields the handled `File not found` content item naming the
resolved filename, and any other read failure yields the handled
`Error reading file` content item carrying the failure message; both are
ordinary results, not exceptions. -/
theorem fileRead_failures_handled (fs : FSState) (now uri : String)
    (hb : resolveBranch uri = RBranch.fileRead) :
    (fsRead fs (resolvedFilename uri) = ReadOutcome.notFound →
      read_resource fs now uri =
        { contents := [{ uri := uri, text := "❌ File not found: " ++ resolvedFilename uri }] }) ∧
    (∀ e, fsRead fs (resolvedFilename uri) = ReadOutcome.err e →
      read_resource fs now uri =
        { contents := [{ uri := uri, text := "❌ Error reading file: " ++ e }] }) := by
  constructor
  · intro h
    simp [read_resource, hb, h]
  · intro e h
    simp [read_resource, hb, h]

/-- Claim C7, witness: a concrete missing file `file://ghost.txt` and a
concrete failing read `file://err.txt`. -/
theorem fileRead_failures_handled_witness :
    read_resource fsErr "t0" "file://ghost.txt" =
      { contents := [{ uri := "file://ghost.txt", text := "❌ File not found: ghost.txt" }] } ∧
    read_resource fsErr "t0" "file://err.txt" =
      { contents := [{ uri := "file://err.txt", text := "❌ Error reading file: disk failure" }] } :=
  ⟨(fileRead_failures_handled fsErr "t0" "file://ghost.txt" rfl).1 rfl,
   (fileRead_failures_handled fsErr "t0" "file://err.txt" rfl).2 "disk failure" rfl⟩

/-- Claim C8: `ListTools` is a pure constant of the process, so every pair
of calls returns the identical sequence; it lists each registered tool
exactly once (no duplicates), in registration order `say_hello`,
`create_sample_data`, `write_note`. -/
theorem listTools_fixed_order_nodup :
    list_tools.map Tool.name = ["say_hello", "create_sample_data", "write_note"] ∧
    (list_tools.map Tool.name).Nodup :=
  ⟨rfl, by decide⟩

/-- Claim C9: `read_resource` is total and on every branch — synthetic,
file-backed, error and unknown alike — returns exactly one text content
item whose `uri` field is the original input URI string verbatim, even
though matching used the trailing-slash-stripped form. -/
theorem readResource_total_singleton_echoes_uri (fs : FSState) (now uri : String) :
    (read_resource fs now uri).contents.length = 1 ∧
    (read_resource fs now uri).contents.map TextResourceContents.uri = [uri] := by
  obtain ⟨t, ht⟩ := read_resource_contents_shape fs now uri
  rw [ht]
  exact ⟨rfl, rfl⟩

/-- Claim C10: a bundle without `filename` makes `create_sample_data` and
`write_note` raise a `KeyError` that escapes the handler body, and a
`write_note` bundle with `filename` but without `content` raises a
`KeyError` on `content` — none of these produce a handled error text. -/
theorem missingRequiredKey_raises (fs : FSState) (args : List (String × String)) :
    (dictGet args "filename" = none →
      handle_tools fs "create_sample_data" args = HandlerOutcome.raisedKeyError "filename" ∧
      handle_tools fs "write_note" args = HandlerOutcome.raisedKeyError "filename") ∧
    (∀ v, dictGet args "filename" = some v → dictGet args "content" = none →
      handle_tools fs "write_note" args = HandlerOutcome.raisedKeyError "content") := by
  constructor
  · intro h
    constructor <;> simp [handle_tools, h]
  · intro v hv hc
    simp [handle_tools, hv, hc]

/-- Claim C10, witness: the empty bundle for both tools, and the bundle
holding only `filename` for `write_note`. -/
theorem missingRequiredKey_raises_witness :
    handle_tools fsEmpty "create_sample_data" [] = HandlerOutcome.raisedKeyError "filename" ∧
    handle_tools fsEmpty "write_note" [] = HandlerOutcome.raisedKeyError "filename" ∧
    handle_tools fsEmpty "write_note" [("filename", "a.txt")] =
      HandlerOutcome.raisedKeyError "content" :=
  ⟨((missingRequiredKey_raises fsEmpty []).1 rfl).1,
   ((missingRequiredKey_raises fsEmpty []).1 rfl).2,
   (missingRequiredKey_raises fsEmpty [("filename", "a.txt")]).2 "a.txt" rfl rfl⟩

end MCPServer
